import Mathlib

/-!
Verification of the conversation/session state machine of the Cortex Analyst
demo app (`src/demo.py`): session-state bookkeeping, the turn controller
(`process_user_input`), the analyst API client (`get_analyst_response`),
error notifications, SQL-result memoization and the chart tab.

The embedding is a shallow one: Python dict/list values flowing through the
code are modelled by a `Json` inductive; in-place mutation of
`st.session_state` is modelled by explicit state passing; a Python exception
escaping a function is modelled by the `Option PyErr` component of its
result, paired with the session state as mutated up to the raise point.
The external collaborators (the Streamlit widget toolkit, the `_snowflake`
HTTP bridge, `json.loads`, the Snowpark warehouse session) appear only
through their results: an HTTP reply is a `SnowApiResponse`, the warehouse
engine is a function parameter, and widget selections are picker-function
parameters.
-/

/-- JSON-shaped Python values (the results of `json.loads` and the message
dictionaries the app builds). Objects keep their key order, as Python dicts
do. -/
inductive Json where
  | null : Json
  | bool : Bool → Json
  | num : Int → Json
  | str : String → Json
  | arr : List Json → Json
  | obj : List (String × Json) → Json
deriving Repr

/-- Python exceptions that the code under analysis can raise:
`json.JSONDecodeError` from `json.loads` on a malformed body, `KeyError`
from subscripting a dict with a missing key, `TypeError` from subscripting
a non-dict value with a string key. -/
inductive PyErr where
  | jsonDecodeError : PyErr
  | keyError : PyErr
  | typeError : PyErr
deriving Repr, DecidableEq

/-- Python dict subscript `j[k]`: returns the value, raises `KeyError` when
the key is absent, `TypeError` when `j` is not a dict. -/
def Json.get (j : Json) (k : String) : Except PyErr Json :=
  match j with
  | .obj kvs =>
    match kvs.lookup k with
    | some v => .ok v
    | none => .error .keyError
  | _ => .error .typeError

mutual
/-- Python `str()` of a JSON-shaped value, as performed by f-string
interpolation: a string interpolates as itself, an int in decimal, `None`
as `None`, booleans as `True`/`False`.  Containers are rendered
structurally (Python would additionally `repr`-quote strings inside them;
no interpolated value in the code under analysis is a container). -/
def pyStr : Json → String
  | .null => "None"
  | .bool true => "True"
  | .bool false => "False"
  | .num n => toString n
  | .str s => s
  | .arr xs => "[" ++ pyStrList xs ++ "]"
  | .obj kvs => "\x7b" ++ pyStrObj kvs ++ "\x7d"

/-- Comma-separated rendering of a list of JSON values. -/
def pyStrList : List Json → String
  | [] => ""
  | [x] => pyStr x
  | x :: xs => pyStr x ++ ", " ++ pyStrList xs

/-- Comma-separated rendering of the key/value pairs of a JSON object. -/
def pyStrObj : List (String × Json) → String
  | [] => ""
  | [(k, v)] => k ++ ": " ++ pyStr v
  | (k, v) :: kvs => k ++ ": " ++ pyStr v ++ ", " ++ pyStrObj kvs
end

/-- The result of one `_snowflake.send_snow_api_request` call, as consumed by
`get_analyst_response`: `status` is the integer HTTP status code
(`resp["status"]`), and `body` is the outcome of `json.loads(resp["content"])`
on the raw body string — `some j` when the body parses to the JSON value `j`,
`none` when it is not valid JSON and `json.loads` raises
`json.JSONDecodeError`. -/
structure SnowApiResponse where
  status : Int
  body : Option Json
deriving Repr

/-- One message of the conversation history: a Python dict with a `role`,
a `content` value, and — on analyst messages only — a `request_id` key
(`none` models the key being absent, as on user messages). -/
structure Turn where
  role : String
  content : Json
  request_id : Option Json
deriving Repr

/-- The fields of `st.session_state` that the app reads and writes.
`fire_API_error_notify` starts out absent, which `st.session_state.get`
reports as falsy; it is modelled as a `Bool` that starts `false`. -/
structure SessionState where
  messages : List Turn
  active_suggestion : Option String
  fire_API_error_notify : Bool
  selected_semantic_model_path : String
deriving Repr

/-- `reset_session_state` (demo.py lines 45–48): sets `messages` to the empty
list and `active_suggestion` to `None`; it touches nothing else. -/
def reset_session_state (s : SessionState) : SessionState :=
  { s with messages := [], active_suggestion := none }

/-- The error message built by `get_analyst_response` on an HTTP status
`>= 400` (demo.py lines 172–183): the f-string triple-quoted literal with the
status code, `request_id`, `error_code` and `message` fields interpolated. -/
def analyst_error_msg (status : Int) (rid ec msg : Json) : String :=
  "\n🚨 An Analyst API error has occurred 🚨\n\n* response code: `"
    ++ toString status
    ++ "`\n* request-id: `" ++ pyStr rid
    ++ "`\n* error code: `" ++ pyStr ec
    ++ "`\n\nMessage:\n```\n" ++ pyStr msg
    ++ "\n```\n        "

/-- `get_analyst_response` (demo.py lines 135–184).  The construction of the
request body `{messages, semantic_model_file}` and the POST through
`_snowflake.send_snow_api_request` are the external call; its result is the
`resp` parameter, the only thing the rest of the function depends on.
The function parses the body with `json.loads` (raising on a malformed
body), returns `(parsed_content, None)` when `resp["status"] < 400`, and
otherwise builds the readable error message — reading `request_id`,
`error_code` and `message` from the parsed body with plain subscripts, each
of which can raise `KeyError` — and returns `(parsed_content, error_msg)`. -/
def get_analyst_response (resp : SnowApiResponse) :
    Except PyErr (Json × Option String) :=
  match resp.body with
  | none => .error .jsonDecodeError
  | some parsed_content =>
    if resp.status < 400 then
      .ok (parsed_content, none)
    else
      match parsed_content.get "request_id" with
      | .error e => .error e
      | .ok rid =>
        match parsed_content.get "error_code" with
        | .error e => .error e
        | .ok ec =>
          match parsed_content.get "message" with
          | .error e => .error e
          | .ok msg =>
            .ok (parsed_content, some (analyst_error_msg resp.status rid ec msg))

/-- The user message dict built by `process_user_input` (demo.py lines
104–107): role `user`, content a one-element list holding a single `text`
block with the prompt, no `request_id` key. -/
def new_user_message (prompt : String) : Turn :=
  { role := "user"
  , content := Json.arr [Json.obj [("type", Json.str "text"), ("text", Json.str prompt)]]
  , request_id := none }

/-- `process_user_input` (demo.py lines 94–132): appends the user message to
`st.session_state.messages`, calls `get_analyst_response`, then builds and
appends the analyst message — on success with the response's
`message.content` and `request_id`, on an API error with a single text block
holding the error message plus setting `fire_API_error_notify` — and ends
with `st.rerun()`.  An exception raised after the user append (malformed
JSON body, or a `KeyError`/`TypeError` from the subscripts) escapes the
function; the result's second component records it, and the first component
is the session state as mutated up to the raise point. -/
def process_user_input (prompt : String) (resp : SnowApiResponse)
    (s : SessionState) : SessionState × Option PyErr :=
  let s1 : SessionState := { s with messages := s.messages ++ [new_user_message prompt] }
  match get_analyst_response resp with
  | .error e => (s1, some e)
  | .ok (response, none) =>
    match response.get "message" with
    | .error e => (s1, some e)
    | .ok m =>
      match m.get "content" with
      | .error e => (s1, some e)
      | .ok content =>
        match response.get "request_id" with
        | .error e => (s1, some e)
        | .ok rid =>
          ({ s1 with messages := s1.messages ++
              [{ role := "analyst", content := content, request_id := some rid }] }, none)
  | .ok (response, some error_msg) =>
    match response.get "request_id" with
    | .error e => (s1, some e)
    | .ok rid =>
      ({ s1 with
          messages := s1.messages ++
            [{ role := "analyst"
             , content := Json.arr [Json.obj [("type", Json.str "text"), ("text", Json.str error_msg)]]
             , request_id := some rid }]
          , fire_API_error_notify := true }, none)

/-- `handle_error_notifications` (demo.py lines 88–91): when the
`fire_API_error_notify` flag is truthy, show the toast and set the flag to
`False`.  The `Bool` component records whether the toast was shown. -/
def handle_error_notifications (s : SessionState) : SessionState × Bool :=
  if s.fire_API_error_notify then
    ({ s with fire_API_error_notify := false }, true)
  else
    (s, false)

/-- `handle_user_inputs` (demo.py lines 75–85): a submitted chat input is
processed; otherwise, when `active_suggestion` is set, it is cleared and
processed as the input.  `user_input` models the value of `st.chat_input`
(`none` when nothing was submitted); Python tests it for truthiness, so an
empty string also falls through to the suggestion branch. -/
def handle_user_inputs (user_input : Option String) (resp : SnowApiResponse)
    (s : SessionState) : SessionState × Option PyErr :=
  match user_input with
  | some input =>
    if input ≠ "" then
      process_user_input input resp s
    else
      match s.active_suggestion with
      | some suggestion =>
        process_user_input suggestion resp { s with active_suggestion := none }
      | none => (s, none)
  | none =>
    match s.active_suggestion with
    | some suggestion =>
      process_user_input suggestion resp { s with active_suggestion := none }
    | none => (s, none)

/-- The bootstrap path of `main` (demo.py lines 38–39): when
`st.session_state.messages` is empty at the start of a script run, the fixed
synthetic prompt is processed through `process_user_input`; the `st.rerun()`
at the end of `process_user_input` then aborts the script run, so nothing
after the call executes in the same run.  When messages are non-empty the
bootstrap does nothing to the state. -/
def main_bootstrap (resp : SnowApiResponse) (s : SessionState) :
    SessionState × Option PyErr :=
  if s.messages.length = 0 then
    process_user_input "¿Que pregunta quieres hacer?" resp s
  else
    (s, none)

/-- A sequence of submitted inputs processed one per UI event, each with the
API response its `process_user_input` call receives; processing stops at the
first escaping exception (that script run aborts), returning the state as
mutated so far. -/
def run_inputs (inputs : List (String × SnowApiResponse)) (s : SessionState) :
    SessionState × Option PyErr :=
  match inputs with
  | [] => (s, none)
  | (p, r) :: rest =>
    match process_user_input p r s with
    | (s1, none) => run_inputs rest s1
    | (s1, some e) => (s1, some e)

/-- A pandas data frame as the query executor and the renderer see it:
ordered named columns and rows of values.  `df.empty` is `rows = []`. -/
structure DataFrame where
  columns : List String
  rows : List (List Json)
deriving Repr

/-- The body of `get_query_exec_result` (demo.py lines 224–243):
`session.sql(query).to_pandas()` either yields a data frame or raises
`SnowparkSQLException`, whose text becomes the error component; the
warehouse session is the `engine` parameter.  Returns `(df, None)` on
success and `(None, str(e))` on an engine-reported failure. -/
def get_query_exec_result (engine : String → Except String DataFrame)
    (query : String) : Option DataFrame × Option String :=
  match engine query with
  | .ok df => (some df, none)
  | .error e => (none, some e)

/-- The process-lifetime cache that the `@st.cache_data` decorator keeps for
`get_query_exec_result`, keyed by the exact query string. -/
structure QueryCache where
  entries : List (String × (Option DataFrame × Option String))

/-- `get_query_exec_result` as actually called, i.e. through its
`@st.cache_data` decorator (demo.py line 224): on a cache hit the stored
result is returned and the function body — hence the warehouse engine — is
not run; on a miss the body runs and the result is stored.  The `Bool`
component records whether the body (the engine) was invoked. -/
def cached_get_query_exec_result (engine : String → Except String DataFrame)
    (query : String) (c : QueryCache) :
    (Option DataFrame × Option String) × QueryCache × Bool :=
  match c.entries.lookup query with
  | some r => (r, c, false)
  | none =>
    let r := get_query_exec_result engine query
    (r, ⟨c.entries ++ [(query, r)]⟩, true)

/-- What the charts tab renders: either the "not enough columns" notice
(no axis selectors at all), or the two axis selectors plus a chart, with
the option sets each selector was given and the choices made. -/
inductive ChartsTabRender where
  | notice : String → ChartsTabRender
  | chart : Finset String → String → Finset String → String → String → ChartsTabRender

/-- `display_charts_tab` (demo.py lines 281–311): with at least 2 columns it
builds `all_cols_set = set(df.columns)`, lets the user pick the X axis from
it, the Y axis from `all_cols_set.difference({x_col})`, and the chart type
from the two fixed options; otherwise it writes the notice.  The selectbox
widgets are external and are modelled by the picker parameters, each
returning the user's (or default) choice from the option set it is given;
the final `st.line_chart`/`st.bar_chart` call into the charting toolkit is
outside the model. -/
def display_charts_tab (df : DataFrame)
    (pick_x : Finset String → String) (pick_y : Finset String → String)
    (pick_chart : List String → String) : ChartsTabRender :=
  if 2 ≤ df.columns.length then
    let all_cols_set := df.columns.toFinset
    let x_col := pick_x all_cols_set
    let y_col := pick_y (all_cols_set \ {x_col})
    let chart_type := pick_chart ["Grafico Lineal 📈", "Grafico Barras 📊"]
    .chart all_cols_set x_col (all_cols_set \ {x_col}) y_col chart_type
  else
    .notice "Al menos 2 columnas requeridas"

/-- `s` has `t` as a contiguous substring. -/
def containsSub (s t : String) : Prop :=
  ∃ pre post, s = pre ++ t ++ post

/-- The session state `reset_session_state` first creates: empty messages,
no active suggestion, notification flag unset. -/
def fresh_state : SessionState :=
  { messages := []
  , active_suggestion := none
  , fire_API_error_notify := false
  , selected_semantic_model_path :=
      "IA_CORTEX.CORTEX_SCHEMA.RAW_DATA/elden_modelo_semantico.yaml" }

/-- A concrete well-formed success reply: status 200, body with
`message.content` a single text block and a `request_id`. -/
def resp200 : SnowApiResponse :=
  { status := 200
  , body := some (Json.obj
      [ ("message", Json.obj
          [ ("content", Json.arr
              [Json.obj [("type", Json.str "text"), ("text", Json.str "hola")]]) ])
      , ("request_id", Json.str "req-1") ]) }

/-- A concrete well-formed error reply: status 400, body with `request_id`,
`error_code` and `message`. -/
def resp400 : SnowApiResponse :=
  { status := 400
  , body := some (Json.obj
      [ ("request_id", Json.str "req-2")
      , ("error_code", Json.str "390301")
      , ("message", Json.str "invalid request") ]) }

/-- A concrete reply whose body is not valid JSON: `json.loads` raises. -/
def respBadJson : SnowApiResponse :=
  { status := 200, body := none }

/-- A concrete status-400 reply whose parsed body lacks all the keys the
error formatting reads. -/
def resp400Empty : SnowApiResponse :=
  { status := 400, body := some (Json.obj []) }

/-! ### Helper lemmas -/

/-- Any `process_user_input` call, whether or not an exception escapes it,
leaves `messages` equal to the old list followed by the new user message and
possibly an analyst message. -/
theorem process_user_input_messages_shape (p : String) (resp : SnowApiResponse)
    (s : SessionState) :
    ∃ l, (process_user_input p resp s).1.messages =
      s.messages ++ (new_user_message p :: l) := by
  cases hg : get_analyst_response resp with
  | error e => exact ⟨[], by simp [process_user_input, hg]⟩
  | ok pr =>
    obtain ⟨response, em⟩ := pr
    cases em with
    | none =>
      cases hm : response.get "message" with
      | error e => exact ⟨[], by simp [process_user_input, hg, hm]⟩
      | ok m =>
        cases hc : m.get "content" with
        | error e => exact ⟨[], by simp [process_user_input, hg, hm, hc]⟩
        | ok content =>
          cases hr : response.get "request_id" with
          | error e => exact ⟨[], by simp [process_user_input, hg, hm, hc, hr]⟩
          | ok rid =>
            exact ⟨[{ role := "analyst", content := content, request_id := some rid }],
              by simp [process_user_input, hg, hm, hc, hr]⟩
    | some error_msg =>
      cases hr : response.get "request_id" with
      | error e => exact ⟨[], by simp [process_user_input, hg, hr]⟩
      | ok rid =>
        exact ⟨[{ role := "analyst"
                , content := Json.arr [Json.obj [("type", Json.str "text"),
                    ("text", Json.str error_msg)]]
                , request_id := some rid }], by simp [process_user_input, hg, hr]⟩

/-- A `process_user_input` call either raises with exactly the user message
appended, or returns normally with exactly the user message and one analyst
message appended (and the notification flag either untouched or set). -/
theorem process_user_input_cases (p : String) (resp : SnowApiResponse)
    (s : SessionState) :
    (∃ e, process_user_input p resp s =
      ({ s with messages := s.messages ++ [new_user_message p] }, some e)) ∨
    (∃ t b, t.role = "analyst" ∧ process_user_input p resp s =
      ({ s with
           messages := s.messages ++ [new_user_message p, t]
           , fire_API_error_notify := b }, none)) := by
  cases hg : get_analyst_response resp with
  | error e => exact .inl ⟨e, by simp [process_user_input, hg]⟩
  | ok pr =>
    obtain ⟨response, em⟩ := pr
    cases em with
    | none =>
      cases hm : response.get "message" with
      | error e => exact .inl ⟨e, by simp [process_user_input, hg, hm]⟩
      | ok m =>
        cases hc : m.get "content" with
        | error e => exact .inl ⟨e, by simp [process_user_input, hg, hm, hc]⟩
        | ok content =>
          cases hr : response.get "request_id" with
          | error e => exact .inl ⟨e, by simp [process_user_input, hg, hm, hc, hr]⟩
          | ok rid =>
            exact .inr ⟨{ role := "analyst", content := content, request_id := some rid },
              s.fire_API_error_notify, rfl,
              by simp [process_user_input, hg, hm, hc, hr]⟩
    | some error_msg =>
      cases hr : response.get "request_id" with
      | error e => exact .inl ⟨e, by simp [process_user_input, hg, hr]⟩
      | ok rid =>
        exact .inr ⟨{ role := "analyst"
                      , content := Json.arr [Json.obj [("type", Json.str "text"),
                          ("text", Json.str error_msg)]]
                      , request_id := some rid }, true, rfl,
          by simp [process_user_input, hg, hr]⟩

/-! ### Claims -/

/-- C5: `reset_session_state` unconditionally sets `messages` to the empty
sequence and `active_suggestion` to none, regardless of the prior state, and
it is idempotent: applying it twice yields the same state as applying it
once. -/
theorem c5_reset_clears_and_is_idempotent (s : SessionState) :
    (reset_session_state s).messages = [] ∧
    (reset_session_state s).active_suggestion = none ∧
    reset_session_state (reset_session_state s) = reset_session_state s :=
  ⟨rfl, rfl, rfl⟩

/-- C9: once the API-error notification flag is set, the notification
handler shows the notice exactly once and resets the flag, so running the
handler again shows nothing and changes nothing. -/
theorem c9_notification_cleared_after_one_display (s : SessionState)
    (h : s.fire_API_error_notify = true) :
    (handle_error_notifications s).2 = true ∧
    (handle_error_notifications s).1.fire_API_error_notify = false ∧
    handle_error_notifications (handle_error_notifications s).1 =
      ((handle_error_notifications s).1, false) := by
  simp [handle_error_notifications, h]

/-- Witness for C9 at a concrete state with the flag set. -/
theorem c9_notification_witness :
    (handle_error_notifications
        { fresh_state with fire_API_error_notify := true }).2 = true ∧
    (handle_error_notifications
        { fresh_state with fire_API_error_notify := true }).1.fire_API_error_notify
      = false ∧
    handle_error_notifications
        (handle_error_notifications
          { fresh_state with fire_API_error_notify := true }).1 =
      ((handle_error_notifications
          { fresh_state with fire_API_error_notify := true }).1, false) :=
  c9_notification_cleared_after_one_display
    { fresh_state with fire_API_error_notify := true } rfl

/-- Looking a key up in an association list that does not contain it defers
to the rest of the list. -/
theorem lookup_append_of_none {α β : Type} [BEq α] {l l' : List (α × β)}
    {k : α} (h : l.lookup k = none) :
    (l ++ l').lookup k = l'.lookup k := by
  induction l with
  | nil => simp
  | cons p t ih =>
    obtain ⟨a, b⟩ := p
    cases hk : k == a with
    | true => simp [List.lookup, hk] at h
    | false =>
      simp only [List.cons_append, List.lookup, hk] at h ⊢
      exact ih h

/-- C7: calling the cached query executor twice with character-for-character
identical SQL text returns the identical result both times, and the
warehouse engine is not invoked on the second call, for any engine, query
and starting cache. -/
theorem c7_query_result_memoized (engine : String → Except String DataFrame)
    (q : String) (c : QueryCache) :
    (cached_get_query_exec_result engine q
        (cached_get_query_exec_result engine q c).2.1).1 =
      (cached_get_query_exec_result engine q c).1 ∧
    (cached_get_query_exec_result engine q
        (cached_get_query_exec_result engine q c).2.1).2.2 = false := by
  cases h : c.entries.lookup q with
  | some r => simp [cached_get_query_exec_result, h]
  | none =>
    have h2 : (c.entries ++ [(q, get_query_exec_result engine q)]).lookup q =
        some (get_query_exec_result engine q) := by
      rw [lookup_append_of_none h]
      simp [List.lookup]
    simp [cached_get_query_exec_result, h, h2]

/-- C6: the charts tab shows the "not enough columns" notice — and no axis
selectors — whenever the result has fewer than 2 columns; with at least 2
columns it offers the full column set for X and exactly the column set
minus the chosen X column for Y, so the X choice never appears among the Y
options. -/
theorem c6_charts_axis_selection (df : DataFrame)
    (pick_x pick_y : Finset String → String)
    (pick_chart : List String → String) :
    (df.columns.length < 2 →
      display_charts_tab df pick_x pick_y pick_chart =
        .notice "Al menos 2 columnas requeridas") ∧
    (2 ≤ df.columns.length →
      display_charts_tab df pick_x pick_y pick_chart =
        .chart df.columns.toFinset (pick_x df.columns.toFinset)
          (df.columns.toFinset \ {pick_x df.columns.toFinset})
          (pick_y (df.columns.toFinset \ {pick_x df.columns.toFinset}))
          (pick_chart ["Grafico Lineal 📈", "Grafico Barras 📊"]) ∧
      pick_x df.columns.toFinset ∉
        df.columns.toFinset \ {pick_x df.columns.toFinset}) := by
  constructor
  · intro h
    simp [display_charts_tab, Nat.not_le.mpr h]
  · intro h
    refine ⟨by simp [display_charts_tab, h], ?_⟩
    simp

/-- Witness for C6: a one-column frame gets the notice; on a two-column
frame the chosen X column is not among the Y options. -/
theorem c6_charts_witness :
    display_charts_tab ⟨["A"], []⟩ (fun _ => "A") (fun _ => "B") (fun _ => "L") =
      .notice "Al menos 2 columnas requeridas" ∧
    ("A" : String) ∉ (⟨["A", "B"], []⟩ : DataFrame).columns.toFinset \ {"A"} := by
  constructor
  · exact (c6_charts_axis_selection ⟨["A"], []⟩ (fun _ => "A") (fun _ => "B")
      (fun _ => "L")).1 (by decide)
  · exact ((c6_charts_axis_selection ⟨["A", "B"], []⟩ (fun _ => "A") (fun _ => "B")
      (fun _ => "L")).2 (by decide)).2

/-- C2: for every API reply with status `< 400` whose body carries the
success shape, the client returns `(parsedBody, None)` and the appended
analyst turn has role analyst, content exactly the body's `message.content`
and `request_id` exactly the body's `request_id`. -/
theorem c2_success_turn_matches_response (p : String) (resp : SnowApiResponse)
    (s : SessionState) (j m c rid : Json)
    (hst : resp.status < 400) (hb : resp.body = some j)
    (hm : j.get "message" = .ok m) (hc : m.get "content" = .ok c)
    (hr : j.get "request_id" = .ok rid) :
    get_analyst_response resp = .ok (j, none) ∧
    process_user_input p resp s =
      ({ s with
           messages := s.messages ++
             [ new_user_message p
             , { role := "analyst", content := c, request_id := some rid } ] },
        none) := by
  have hg : get_analyst_response resp = .ok (j, none) := by
    simp [get_analyst_response, hb, hst]
  exact ⟨hg, by simp [process_user_input, hg, hm, hc, hr]⟩

/-- Witness for C2 at a concrete 200 reply. -/
theorem c2_success_witness :
    get_analyst_response resp200 =
      .ok (Json.obj
        [ ("message", Json.obj
            [ ("content", Json.arr
                [Json.obj [("type", Json.str "text"), ("text", Json.str "hola")]]) ])
        , ("request_id", Json.str "req-1") ], none) ∧
    process_user_input "pregunta" resp200 fresh_state =
      ({ fresh_state with
           messages := fresh_state.messages ++
             [ new_user_message "pregunta"
             , { role := "analyst"
               , content := Json.arr
                   [Json.obj [("type", Json.str "text"), ("text", Json.str "hola")]]
               , request_id := some (Json.str "req-1") } ] }, none) :=
  c2_success_turn_matches_response "pregunta" resp200 fresh_state
    (Json.obj
      [ ("message", Json.obj
          [ ("content", Json.arr
              [Json.obj [("type", Json.str "text"), ("text", Json.str "hola")]]) ])
      , ("request_id", Json.str "req-1") ])
    (Json.obj
      [ ("content", Json.arr
          [Json.obj [("type", Json.str "text"), ("text", Json.str "hola")]]) ])
    (Json.arr [Json.obj [("type", Json.str "text"), ("text", Json.str "hola")]])
    (Json.str "req-1")
    (by decide) rfl rfl rfl rfl

/-- The formatted API error message contains the status code and the
`request_id`, `error_code` and `message` fields of the parsed body. -/
theorem analyst_error_msg_contains (status : Int) (rid ec msg : Json) :
    containsSub (analyst_error_msg status rid ec msg) (toString status) ∧
    containsSub (analyst_error_msg status rid ec msg) (pyStr rid) ∧
    containsSub (analyst_error_msg status rid ec msg) (pyStr ec) ∧
    containsSub (analyst_error_msg status rid ec msg) (pyStr msg) := by
  unfold analyst_error_msg containsSub
  refine ⟨⟨"\n🚨 An Analyst API error has occurred 🚨\n\n* response code: `",
      "`\n* request-id: `" ++ pyStr rid ++ "`\n* error code: `" ++ pyStr ec ++
        "`\n\nMessage:\n```\n" ++ pyStr msg ++ "\n```\n        ", ?_⟩,
    ⟨"\n🚨 An Analyst API error has occurred 🚨\n\n* response code: `" ++
        toString status ++ "`\n* request-id: `",
      "`\n* error code: `" ++ pyStr ec ++ "`\n\nMessage:\n```\n" ++ pyStr msg ++
        "\n```\n        ", ?_⟩,
    ⟨"\n🚨 An Analyst API error has occurred 🚨\n\n* response code: `" ++
        toString status ++ "`\n* request-id: `" ++ pyStr rid ++ "`\n* error code: `",
      "`\n\nMessage:\n```\n" ++ pyStr msg ++ "\n```\n        ", ?_⟩,
    ⟨"\n🚨 An Analyst API error has occurred 🚨\n\n* response code: `" ++
        toString status ++ "`\n* request-id: `" ++ pyStr rid ++ "`\n* error code: `" ++
        pyStr ec ++ "`\n\nMessage:\n```\n",
      "\n```\n        ", ?_⟩⟩ <;>
    simp [String.append_assoc]

/-- C3: for every reply with status `>= 400` whose parsed body carries
`request_id`, `error_code` and `message`, the appended analyst turn is a
single text block whose string contains the status code and those three
fields, and the API-error notification flag is set. -/
theorem c3_error_turn_and_notification (p : String) (resp : SnowApiResponse)
    (s : SessionState) (j rid ec msg : Json)
    (hst : ¬resp.status < 400) (hb : resp.body = some j)
    (hr : j.get "request_id" = .ok rid) (he : j.get "error_code" = .ok ec)
    (hm : j.get "message" = .ok msg) :
    process_user_input p resp s =
      ({ s with
           messages := s.messages ++
             [ new_user_message p
             , { role := "analyst"
               , content := Json.arr [Json.obj [("type", Json.str "text"),
                   ("text", Json.str (analyst_error_msg resp.status rid ec msg))]]
               , request_id := some rid } ]
           , fire_API_error_notify := true }, none) ∧
    containsSub (analyst_error_msg resp.status rid ec msg) (toString resp.status) ∧
    containsSub (analyst_error_msg resp.status rid ec msg) (pyStr rid) ∧
    containsSub (analyst_error_msg resp.status rid ec msg) (pyStr ec) ∧
    containsSub (analyst_error_msg resp.status rid ec msg) (pyStr msg) := by
  have hg : get_analyst_response resp =
      .ok (j, some (analyst_error_msg resp.status rid ec msg)) := by
    simp [get_analyst_response, hb, hst, hr, he, hm]
  exact ⟨by simp [process_user_input, hg, hr],
    analyst_error_msg_contains resp.status rid ec msg⟩

/-- Witness for C3 at a concrete 400 reply. -/
theorem c3_error_turn_witness :
    process_user_input "pregunta" resp400 fresh_state =
      ({ fresh_state with
           messages := fresh_state.messages ++
             [ new_user_message "pregunta"
             , { role := "analyst"
               , content := Json.arr [Json.obj [("type", Json.str "text"),
                   ("text", Json.str (analyst_error_msg resp400.status
                     (Json.str "req-2") (Json.str "390301")
                     (Json.str "invalid request")))]]
               , request_id := some (Json.str "req-2") } ]
           , fire_API_error_notify := true }, none) ∧
    containsSub (analyst_error_msg resp400.status (Json.str "req-2")
        (Json.str "390301") (Json.str "invalid request"))
      (toString resp400.status) ∧
    containsSub (analyst_error_msg resp400.status (Json.str "req-2")
        (Json.str "390301") (Json.str "invalid request"))
      (pyStr (Json.str "req-2")) ∧
    containsSub (analyst_error_msg resp400.status (Json.str "req-2")
        (Json.str "390301") (Json.str "invalid request"))
      (pyStr (Json.str "390301")) ∧
    containsSub (analyst_error_msg resp400.status (Json.str "req-2")
        (Json.str "390301") (Json.str "invalid request"))
      (pyStr (Json.str "invalid request")) :=
  c3_error_turn_and_notification "pregunta" resp400 fresh_state
    (Json.obj
      [ ("request_id", Json.str "req-2")
      , ("error_code", Json.str "390301")
      , ("message", Json.str "invalid request") ])
    (Json.str "req-2") (Json.str "390301") (Json.str "invalid request")
    (by decide) rfl rfl rfl rfl

/-- C10: the API-error path reads `request_id`, `error_code` and `message`
from the parsed body unconditionally, so an error reply whose body lacks any
of them makes the turn fail with an unhandled `KeyError` — only the user
message is appended, and no recovered analyst turn appears. -/
theorem c10_error_body_requires_keys (p : String) (resp : SnowApiResponse)
    (s : SessionState) (kvs : List (String × Json))
    (hst : ¬resp.status < 400) (hb : resp.body = some (Json.obj kvs))
    (hmiss : kvs.lookup "request_id" = none ∨ kvs.lookup "error_code" = none ∨
      kvs.lookup "message" = none) :
    process_user_input p resp s =
      ({ s with messages := s.messages ++ [new_user_message p] },
        some PyErr.keyError) := by
  have hg : get_analyst_response resp = .error PyErr.keyError := by
    cases h1 : kvs.lookup "request_id" with
    | none => simp [get_analyst_response, hb, hst, Json.get, h1]
    | some rid =>
      cases h2 : kvs.lookup "error_code" with
      | none => simp [get_analyst_response, hb, hst, Json.get, h1, h2]
      | some ec =>
        have h3 : kvs.lookup "message" = none := by
          rcases hmiss with h | h | h
          · rw [h1] at h; exact absurd h (by simp)
          · rw [h2] at h; exact absurd h (by simp)
          · exact h
        simp [get_analyst_response, hb, hst, Json.get, h1, h2, h3]
  simp [process_user_input, hg]

/-- Witness for C10: a 400 reply with an empty JSON object body. -/
theorem c10_missing_keys_witness :
    process_user_input "pregunta" resp400Empty fresh_state =
      ({ fresh_state with
           messages := fresh_state.messages ++ [new_user_message "pregunta"] },
        some PyErr.keyError) :=
  c10_error_body_requires_keys "pregunta" resp400Empty fresh_state []
    (by decide) rfl (.inl rfl)

/-- C4 counterexample: a reply whose body is not valid JSON makes
`process_user_input` end with an escaping exception (the `json.loads`
failure), not with a rendered error turn. -/
theorem c4_malformed_body_escapes :
    (process_user_input "pregunta" respBadJson fresh_state).2 =
      some PyErr.jsonDecodeError ∧
    (process_user_input "pregunta" respBadJson fresh_state).2 ≠ none := by
  refine ⟨rfl, fun h => ?_⟩
  rw [show (process_user_input "pregunta" respBadJson fresh_state).2 =
      some PyErr.jsonDecodeError from rfl] at h
  exact Option.noConfusion h

/-- C4 (amended): for every reply whose body is valid JSON and carries the
keys its status path reads, processing one user input lets no exception
escape the controller, and the conversation grows by the two turns. -/
theorem c4_no_escape_for_wellformed_replies (p : String) (resp : SnowApiResponse)
    (s : SessionState) (j : Json) (hb : resp.body = some j)
    (hok : resp.status < 400 → ∃ m c rid, j.get "message" = .ok m ∧
      m.get "content" = .ok c ∧ j.get "request_id" = .ok rid)
    (herr : ¬resp.status < 400 → ∃ rid ec msg, j.get "request_id" = .ok rid ∧
      j.get "error_code" = .ok ec ∧ j.get "message" = .ok msg) :
    (process_user_input p resp s).2 = none ∧
    (process_user_input p resp s).1.messages.length = s.messages.length + 2 := by
  by_cases hst : resp.status < 400
  · obtain ⟨m, c, rid, hm, hc, hr⟩ := hok hst
    have hg : get_analyst_response resp = .ok (j, none) := by
      simp [get_analyst_response, hb, hst]
    constructor
    · simp [process_user_input, hg, hm, hc, hr]
    · simp [process_user_input, hg, hm, hc, hr]
  · obtain ⟨rid, ec, msg, hr, he, hm⟩ := herr hst
    have hg : get_analyst_response resp =
        .ok (j, some (analyst_error_msg resp.status rid ec msg)) := by
      simp [get_analyst_response, hb, hst, hr, he, hm]
    constructor
    · simp [process_user_input, hg, hr]
    · simp [process_user_input, hg, hr]

/-- Witness for the amended C4 at a concrete well-formed success reply. -/
theorem c4_no_escape_witness :
    (process_user_input "pregunta" resp200 fresh_state).2 = none ∧
    (process_user_input "pregunta" resp200 fresh_state).1.messages.length =
      fresh_state.messages.length + 2 :=
  c4_no_escape_for_wellformed_replies "pregunta" resp200 fresh_state
    (Json.obj
      [ ("message", Json.obj
          [ ("content", Json.arr
              [Json.obj [("type", Json.str "text"), ("text", Json.str "hola")]]) ])
      , ("request_id", Json.str "req-1") ])
    rfl
    (fun _ =>
      ⟨Json.obj
        [ ("content", Json.arr
            [Json.obj [("type", Json.str "text"), ("text", Json.str "hola")]]) ],
        Json.arr [Json.obj [("type", Json.str "text"), ("text", Json.str "hola")]],
        Json.str "req-1", rfl, rfl, rfl⟩)
    (fun h => absurd (by decide) h)

/-- When every input of a sequence is processed without an escaping
exception, the conversation grows by exactly two turns per input. -/
theorem run_inputs_length_of_ok (inputs : List (String × SnowApiResponse)) :
    ∀ s : SessionState, (run_inputs inputs s).2 = none →
      (run_inputs inputs s).1.messages.length =
        s.messages.length + 2 * inputs.length := by
  induction inputs with
  | nil =>
    intro s _
    simp [run_inputs]
  | cons pr rest ih =>
    obtain ⟨p, r⟩ := pr
    intro s h
    rcases process_user_input_cases p r s with ⟨e, heq⟩ | ⟨t, b, hrole, heq⟩
    · simp [run_inputs, heq] at h
    · simp only [run_inputs, heq] at h ⊢
      rw [ih _ h]
      simp only [List.length_append, List.length_cons, List.length_nil]
      omega

/-- The message log never shrinks across a sequence of processed inputs,
whether or not the last one raised. -/
theorem run_inputs_length_mono (inputs : List (String × SnowApiResponse)) :
    ∀ s : SessionState,
      s.messages.length ≤ (run_inputs inputs s).1.messages.length := by
  induction inputs with
  | nil =>
    intro s
    simp [run_inputs]
  | cons pr rest ih =>
    obtain ⟨p, r⟩ := pr
    intro s
    rcases process_user_input_cases p r s with ⟨e, heq⟩ | ⟨t, b, hrole, heq⟩
    · simp [run_inputs, heq]
    · simp only [run_inputs, heq]
      refine le_trans ?_ (ih _)
      simp

/-- A single successfully processed input appends exactly the user turn and
one analyst turn, in that order. -/
theorem process_user_input_ok_two_turns (p : String) (resp : SnowApiResponse)
    (s : SessionState) (h : (process_user_input p resp s).2 = none) :
    ∃ t, t.role = "analyst" ∧
      (process_user_input p resp s).1.messages =
        s.messages ++ [new_user_message p, t] := by
  rcases process_user_input_cases p resp s with ⟨e, heq⟩ | ⟨t, b, hrole, heq⟩
  · rw [heq] at h
    exact Option.noConfusion h
  · exact ⟨t, hrole, by rw [heq]⟩

/-- C1: each input processed without an escaping exception appends exactly
two turns — the user turn holding the input, then one analyst turn — so over
any sequence of inputs that all process, `messages` grows by exactly 2 per
input; and over any sequence at all it never shrinks. -/
theorem c1_two_turns_per_processed_input :
    (∀ (p : String) (resp : SnowApiResponse) (s : SessionState),
      (process_user_input p resp s).2 = none →
        ∃ t, t.role = "analyst" ∧
          (process_user_input p resp s).1.messages =
            s.messages ++ [new_user_message p, t]) ∧
    (∀ (inputs : List (String × SnowApiResponse)) (s : SessionState),
      (run_inputs inputs s).2 = none →
        (run_inputs inputs s).1.messages.length =
          s.messages.length + 2 * inputs.length) ∧
    (∀ (inputs : List (String × SnowApiResponse)) (s : SessionState),
      s.messages.length ≤ (run_inputs inputs s).1.messages.length) :=
  ⟨process_user_input_ok_two_turns,
    fun inputs s => run_inputs_length_of_ok inputs s,
    fun inputs s => run_inputs_length_mono inputs s⟩

/-- Witness for C1: a concrete two-input run with well-formed replies grows
the empty conversation to exactly 4 messages. -/
theorem c1_two_turns_witness :
    (run_inputs [("hola", resp200), ("otra", resp400)] fresh_state).2 = none ∧
    (run_inputs [("hola", resp200), ("otra", resp400)] fresh_state).1.messages.length =
      fresh_state.messages.length + 2 * 2 :=
  ⟨rfl, c1_two_turns_per_processed_input.2.1
    [("hola", resp200), ("otra", resp400)] fresh_state rfl⟩

/-- C8 counterexample: on an empty conversation the bootstrap processes the
Spanish prompt of the source, so the first message is not a user turn
holding the string "what question would you like to ask?". -/
theorem c8_prompt_counterexample :
    (main_bootstrap resp200 fresh_state).1.messages.head? =
      some (new_user_message "¿Que pregunta quieres hacer?") ∧
    (main_bootstrap resp200 fresh_state).1.messages.head? ≠
      some (new_user_message "what question would you like to ask?") := by
  refine ⟨rfl, fun h => ?_⟩
  rw [show (main_bootstrap resp200 fresh_state).1.messages.head? =
      some (new_user_message "¿Que pregunta quieres hacer?") from rfl] at h
  simp [new_user_message] at h

/-- C8 (amended): if `messages` is empty when the UI starts, the controller
synthesizes the initial synthetic prompt "¿Que pregunta quieres hacer?" and
feeds it through the very same `process_user_input` protocol as a real
input, so the first message becomes the user turn holding that prompt. -/
theorem c8_bootstrap_same_protocol (resp : SnowApiResponse) (s : SessionState)
    (h : s.messages = []) :
    main_bootstrap resp s =
      process_user_input "¿Que pregunta quieres hacer?" resp s ∧
    ∃ l, (main_bootstrap resp s).1.messages =
      new_user_message "¿Que pregunta quieres hacer?" :: l := by
  have h0 : s.messages.length = 0 := by rw [h]; rfl
  have hmain : main_bootstrap resp s =
      process_user_input "¿Que pregunta quieres hacer?" resp s := by
    simp [main_bootstrap, h0]
  refine ⟨hmain, ?_⟩
  obtain ⟨l, hl⟩ :=
    process_user_input_messages_shape "¿Que pregunta quieres hacer?" resp s
  refine ⟨l, ?_⟩
  rw [hmain, hl, h]
  rfl

/-- Witness for the amended C8 on the empty fresh state. -/
theorem c8_bootstrap_witness :
    main_bootstrap resp200 fresh_state =
      process_user_input "¿Que pregunta quieres hacer?" resp200 fresh_state ∧
    ∃ l, (main_bootstrap resp200 fresh_state).1.messages =
      new_user_message "¿Que pregunta quieres hacer?" :: l :=
  c8_bootstrap_same_protocol resp200 fresh_state rfl
